import Mathlib

/-!
Verification development for the GamerBox raffle/prize-draw application.

The application's data-sync context (`DataContext`) is embedded shallowly:

* JavaScript strings are modeled as lists of Unicode code points (`JStr`);
  every character class appearing in the source's regexes (`[a-z]`, `[A-Z]`,
  `[-_]`) is ASCII, and `toUpperCase`/`toLowerCase` restricted to those
  classes is the ASCII case shift, so this fragment is modeled exactly.
* The remote relational store is modeled as an explicit `DB` record of row
  lists; store-generated row ids are modeled by a `nextId` counter.
  Read queries are modeled as succeeding; failures of store writes and of
  image uploads are modeled by explicit oracle arguments (`Option`/`Bool`),
  mirroring the `error` results the supabase client can return.
* JSON-like payloads handled by the field-name transcoder are modeled by the
  nested inductive `JVal`; JavaScript objects are modeled as association
  lists in key-insertion order (a JavaScript object has no duplicate keys).
-/

namespace GamerBox

/-- A JavaScript string, modeled as its list of Unicode code points. -/
abbrev JStr := List Nat

/-- Convert a Lean string literal into the `JStr` model. -/
def str (s : String) : JStr := s.data.map Char.toNat

/-- ASCII lowercase test, the `[a-z]` character class of the source's regexes. -/
def isLowerChar (c : Nat) : Bool := decide (97 ≤ c ∧ c ≤ 122)

/-- ASCII uppercase test, the `[A-Z]` character class of the source's regexes. -/
def isUpperChar (c : Nat) : Bool := decide (65 ≤ c ∧ c ≤ 90)

/-- `toUpperCase` on a single character, as it acts on the `[a-z]` class. -/
def upperChar (c : Nat) : Nat := if isLowerChar c then c - 32 else c

/-- `toLowerCase` on a single character, as it acts on the `[A-Z]` class. -/
def lowerChar (c : Nat) : Nat := if isUpperChar c then c + 32 else c

/-- `String.prototype.toUpperCase`, modeled pointwise (exact on ASCII). -/
def jsToUpper (s : JStr) : JStr := s.map upperChar

/-- `String.prototype.toLowerCase`, modeled pointwise (exact on ASCII). -/
def jsToLower (s : JStr) : JStr := s.map lowerChar

/-- The underscore code point. -/
def underscoreChar : Nat := 95

/-- The hyphen code point. -/
def hyphenChar : Nat := 45

/-- `snakeToCamel` from the source:
`str.replace(/([-_][a-z])/g, g => g.toUpperCase().replace('_', ''))`.
The global regex scans left to right for a `-` or `_` followed by an ASCII
lowercase letter; the matched group is upper-cased (which only affects the
letter) and its underscore, if any, is removed, so `_x` becomes `X` and
`-x` becomes `-X`. -/
def snakeToCamel : JStr → JStr
  | [] => []
  | [c] => [c]
  | c :: d :: rest =>
    if (c = underscoreChar ∨ c = hyphenChar) ∧ isLowerChar d then
      (if c = underscoreChar then [upperChar d] else [c, upperChar d]) ++ snakeToCamel rest
    else
      c :: snakeToCamel (d :: rest)

/-- `camelToSnake` from the source:
`str.replace(/[A-Z]/g, l => `_${l.toLowerCase()}`)`. -/
def camelToSnake : JStr → JStr
  | [] => []
  | c :: rest =>
    (if isUpperChar c then [underscoreChar, lowerChar c] else [c]) ++ camelToSnake rest

/-- A JSON-like JavaScript value, as traversed by `toCamel`/`toSnake`:
arrays, plain objects (association lists in key-insertion order), and
primitive leaves (numbers, strings, booleans, `null`, …), which both
transforms return unchanged and which are modeled opaquely. -/
inductive JVal where
  | atom : Nat → JVal
  | arr : List JVal → JVal
  | obj : List (JStr × JVal) → JVal

/-- The credential-sentinel key `'password'`. -/
def pwdKey : JStr := str "password"

/-- The credential-sentinel key `'confirmPassword'`. -/
def confirmPwdKey : JStr := str "confirmPassword"

/-- The source's sentinel test `key === 'password' || key === 'confirmPassword'`. -/
def isSentinel (k : JStr) : Bool := k = pwdKey ∨ k = confirmPwdKey

mutual

/-- `toCamel` from the source: arrays map recursively, plain objects have
every key rewritten by `snakeToCamel` and every value transformed, leaves
pass through. -/
def toCamel : JVal → JVal
  | .atom a => .atom a
  | .arr vs => .arr (toCamelList vs)
  | .obj kvs => .obj (toCamelObj kvs)

/-- `toCamel` mapped over an array's elements. -/
def toCamelList : List JVal → List JVal
  | [] => []
  | v :: vs => toCamel v :: toCamelList vs

/-- `toCamel` folded over an object's entries. -/
def toCamelObj : List (JStr × JVal) → List (JStr × JVal)
  | [] => []
  | (k, v) :: kvs => (snakeToCamel k, toCamel v) :: toCamelObj kvs

end

mutual

/-- `toSnake` from the source: like `toCamel` in the other direction, except
that an entry whose key is `'password'` or `'confirmPassword'` is copied
with its key unrewritten and its value untransformed. -/
def toSnake : JVal → JVal
  | .atom a => .atom a
  | .arr vs => .arr (toSnakeList vs)
  | .obj kvs => .obj (toSnakeObj kvs)

/-- `toSnake` mapped over an array's elements. -/
def toSnakeList : List JVal → List JVal
  | [] => []
  | v :: vs => toSnake v :: toSnakeList vs

/-- `toSnake` folded over an object's entries, with the sentinel exception. -/
def toSnakeObj : List (JStr × JVal) → List (JStr × JVal)
  | [] => []
  | (k, v) :: kvs =>
    (if isSentinel k then (k, v) else (camelToSnake k, toSnake v)) :: toSnakeObj kvs

end

/-- The underscore-separated key whose camel-cased image collides with the
sentinel key `'confirmPassword'`. -/
def confirmSnakeKey : JStr := str "confirm_password"

/-- A key fit for the underscore convention: no ASCII uppercase letter
(`camelToSnake` rewrites those) and no hyphen (`snakeToCamel` upper-cases a
letter after a hyphen without a matching inverse). -/
def snakeKeyOk (k : JStr) : Bool := k.all (fun c => !isUpperChar c && !(c == hyphenChar))

/-- A key fit for the camel convention: no underscore and no hyphen. -/
def camelKeyOk (k : JStr) : Bool := k.all (fun c => !(c == underscoreChar) && !(c == hyphenChar))

mutual

/-- All mapping keys of a value are underscore-separated, none is a
credential-sentinel key, and none is `'confirm_password'` (whose camel-cased
image is the sentinel `'confirmPassword'`). -/
def snakeOk : JVal → Bool
  | .atom _ => true
  | .arr vs => snakeOkList vs
  | .obj kvs => snakeOkObj kvs

/-- `snakeOk` over an array's elements. -/
def snakeOkList : List JVal → Bool
  | [] => true
  | v :: vs => snakeOk v && snakeOkList vs

/-- `snakeOk` over an object's entries. -/
def snakeOkObj : List (JStr × JVal) → Bool
  | [] => true
  | (k, v) :: kvs =>
    (snakeKeyOk k && !isSentinel k && !(k == confirmSnakeKey)) && snakeOk v && snakeOkObj kvs

end

mutual

/-- All mapping keys of a value are camel-cased and none is a
credential-sentinel key. -/
def camelOk : JVal → Bool
  | .atom _ => true
  | .arr vs => camelOkList vs
  | .obj kvs => camelOkObj kvs

/-- `camelOk` over an array's elements. -/
def camelOkList : List JVal → Bool
  | [] => true
  | v :: vs => camelOk v && camelOkList vs

/-- `camelOk` over an object's entries. -/
def camelOkObj : List (JStr × JVal) → Bool
  | [] => true
  | (k, v) :: kvs => (camelKeyOk k && !isSentinel k) && camelOk v && camelOkObj kvs

end

/-- The keys of an object value (used to separate structurally unequal values). -/
def keysOf : JVal → List JStr
  | .obj kvs => kvs.map Prod.fst
  | _ => []

/-- The positions of a value that `toSnake` recursively processes: the value
itself, the elements of processed arrays, and the values of processed object
entries whose key is not a credential sentinel (sentinel values are passed
through untransformed, so `toSnake` never descends into them). -/
inductive Proc : JVal → JVal → Prop where
  | refl (v : JVal) : Proc v v
  | arr {vs : List JVal} {u w : JVal} : u ∈ vs → Proc u w → Proc (JVal.arr vs) w
  | obj {kvs : List (JStr × JVal)} {k : JStr} {u w : JVal} :
      (k, u) ∈ kvs → isSentinel k = false → Proc u w → Proc (JVal.obj kvs) w

/-- The rewriting `toSnake` applies to a single object entry. -/
def toSnakeEntry (kv : JStr × JVal) : JStr × JVal :=
  if isSentinel kv.1 then kv else (camelToSnake kv.1, toSnake kv.2)

-- --------------------------------------------------------------------------
-- The data-sync context (`DataProvider`), embedded as explicit state.
-- Opaque string row identifiers are modeled as naturals; the store's
-- generated ids are modeled by the `DB.nextId` counter.
-- --------------------------------------------------------------------------

/-- An organizer row (`organizers` table / `Organizer` type). -/
structure Organizer where
  id : Nat
  name : JStr
  responsibleName : JStr
  email : JStr
  phone : JStr
  photoUrl : Option JStr
  organizerCode : JStr
  passwordHash : Option JStr
deriving DecidableEq

/-- An event row (`events` table). -/
structure EventRow where
  id : Nat
  name : JStr
  date : Nat
  organizerId : Nat
deriving DecidableEq

/-- A raffle row (`raffles` table). -/
structure Raffle where
  id : Nat
  eventId : Nat
  name : JStr
  quantity : Nat
  code : JStr
deriving DecidableEq

/-- A participant row (`participants` table). -/
structure Participant where
  id : Nat
  raffleId : Nat
  name : JStr
  email : JStr
  phone : JStr
  isWinner : Bool
  drawnAt : Option Nat
deriving DecidableEq

/-- A company row (`companies` table). -/
structure Company where
  id : Nat
  eventId : Nat
  name : JStr
  logoUrl : JStr
deriving DecidableEq

/-- A collaborator record (`collaborators` table), as held in the session. -/
structure Collaborator where
  id : Nat
  companyId : Nat
  name : JStr
  code : JStr
deriving DecidableEq

/-- A prize row (`prizes` table). -/
structure Prize where
  id : Nat
  companyId : Nat
  name : JStr
deriving DecidableEq

/-- The mirrored remote store (the tables the verified operations touch). -/
structure DB where
  organizers : List Organizer
  events : List EventRow
  raffles : List Raffle
  participants : List Participant
  companies : List Company
  nextId : Nat
deriving DecidableEq

/-- The `{ success, message }` result every mutation entry point returns. -/
structure OpResult where
  success : Bool
  message : JStr
deriving DecidableEq

/-- `'Sorteio não encontrado.'` -/
def msgRaffleNotFound : JStr := str "Sorteio não encontrado."

/-- `'Este e-mail já está cadastrado neste sorteio.'` -/
def msgEmailTaken : JStr := str "Este e-mail já está cadastrado neste sorteio."

/-- The quantity-ceiling message, with the raffle name interpolated. -/
def msgLimitReached (name : JStr) : JStr :=
  str "O sorteio para \"" ++ name ++ str "\" já atingiu o limite de ganhadores."

/-- `'Erro ao cadastrar: …'` -/
def msgRegisterError (e : JStr) : JStr := str "Erro ao cadastrar: " ++ e

/-- `'Cadastro realizado com sucesso!'` -/
def msgRegistered : JStr := str "Cadastro realizado com sucesso!"

/-- `'Organizador não está logado.'` -/
def msgNotLoggedIn : JStr := str "Organizador não está logado."

/-- `'Erro ao criar evento: …'` -/
def msgEventCreateError (e : JStr) : JStr := str "Erro ao criar evento: " ++ e

/-- `'Este código de sorteio já está em uso.'` -/
def msgCodeInUse : JStr := str "Este código de sorteio já está em uso."

/-- `'Erro ao criar sorteio: …'` -/
def msgRaffleCreateError (e : JStr) : JStr := str "Erro ao criar sorteio: " ++ e

/-- The success message of `createEventWithRaffle`, with the raffle name. -/
def msgRaffleAdded (name : JStr) : JStr :=
  str "Sorteio \"" ++ name ++ str "\" adicionado!"

/-- `'Falha no upload da foto.'` -/
def msgPhotoUploadFail : JStr := str "Falha no upload da foto."

/-- `'Organizador criado com sucesso!'` -/
def msgOrganizerCreated : JStr := str "Organizador criado com sucesso!"

/-- `'Organizador atualizado com sucesso!'` -/
def msgOrganizerUpdated : JStr := str "Organizador atualizado com sucesso!"

/-- The fixed default image URL substituted when no image is supplied. -/
def DEFAULT_IMAGE_URL : JStr :=
  str "https://aisfizoyfpcisykarrnt.supabase.co/storage/v1/object/public/prospectaifeedback/WhatsApp%20Image%202025-09-12%20at%2000.14.26.jpeg"

/-- The argument of `addParticipant` (`Omit<Participant, 'id' | 'isWinner'>`). -/
structure ParticipantInput where
  raffleId : Nat
  name : JStr
  email : JStr
  phone : JStr
deriving DecidableEq

/-- The count-only winner query of `addParticipant`:
participants of the raffle with `is_winner = true`. -/
def winnerCount (db : DB) (raffleId : Nat) : Nat :=
  (db.participants.filter (fun p => p.raffleId == raffleId && p.isWinner)).length

/-- `addParticipant` from the source. Looks up the raffle by id; rejects a
stored participant of the raffle whose email equals the lower-cased input
email; rejects when the winner count has reached the raffle's quantity;
otherwise inserts a row carrying the input fields (the email as given, not
lower-cased) with the winner flag false. `insertError` is the store's
possible rejection of the insert (`error` in the source). -/
def addParticipant (db : DB) (pd : ParticipantInput) (insertError : Option JStr) :
    DB × OpResult :=
  match db.raffles.find? (fun raffle => raffle.id == pd.raffleId) with
  | none => (db, ⟨false, msgRaffleNotFound⟩)
  | some raffle =>
    match db.participants.find?
        (fun p => p.email == jsToLower pd.email && p.raffleId == pd.raffleId) with
    | some _ => (db, ⟨false, msgEmailTaken⟩)
    | none =>
      if raffle.quantity ≤ winnerCount db pd.raffleId then
        (db, ⟨false, msgLimitReached raffle.name⟩)
      else
        match insertError with
        | some e => (db, ⟨false, msgRegisterError e⟩)
        | none =>
          ({ db with
              participants := db.participants ++
                [⟨db.nextId, pd.raffleId, pd.name, pd.email, pd.phone, false, none⟩],
              nextId := db.nextId + 1 },
           ⟨true, msgRegistered⟩)

/-- The derived `selectedRaffle` view: the mirrored raffle whose id is the
persisted selection, if any. -/
def selectedRaffleOf (db : DB) (selId : Option Nat) : Option Raffle :=
  match selId with
  | none => none
  | some i => db.raffles.find? (fun raffle => raffle.id == i)

/-- The derived `selectedEvent` view. -/
def selectedEventOf (db : DB) (selId : Option Nat) : Option EventRow :=
  match selId with
  | none => none
  | some i => db.events.find? (fun ev => ev.id == i)

/-- The eligible-participant fetch of `drawWinner`: participants of the
raffle with the winner flag false, in store order. -/
def eligibleOf (db : DB) (raffleId : Nat) : List Participant :=
  db.participants.filter (fun p => p.raffleId == raffleId && !p.isWinner)

/-- `Math.floor(random * n)` with `random` modeled as a rational. -/
def drawIndex (r : ℚ) (n : Nat) : Nat := (Int.floor (r * (n : ℚ))).toNat

/-- The row update of `drawWinner`: winner flag true, draw timestamp set. -/
def markWinner (p : Participant) (now : Nat) : Participant :=
  { p with isWinner := true, drawnAt := some now }

/-- Placeholder row for the out-of-range indexing JavaScript would perform
with `undefined`; unreachable under the proved index bound. -/
def defaultParticipant : Participant := ⟨0, 0, [], [], [], false, none⟩

/-- `drawWinner` from the source. Fetches the eligible participants of the
currently selected raffle, picks the index `⌊random · length⌋`, updates that
row by id to a winner with the draw timestamp, and returns the updated row;
returns nothing if no raffle is selected, if the eligible set is empty, or if
the store rejects the update (`updateOk = false`). -/
def drawWinner (db : DB) (selId : Option Nat) (r : ℚ) (now : Nat) (updateOk : Bool) :
    DB × Option Participant :=
  match selectedRaffleOf db selId with
  | none => (db, none)
  | some raf =>
    let eligible := eligibleOf db raf.id
    if eligible.length = 0 then (db, none)
    else
      let w := eligible.getD (drawIndex r eligible.length) defaultParticipant
      if updateOk then
        ({ db with
            participants := db.participants.map fun p =>
              if p.id == w.id then markWinner p now else p },
         some (markWinner w now))
      else (db, none)

/-- The argument record of `createEventWithRaffle`. -/
structure EventRaffleInput where
  eventName : JStr
  raffleName : JStr
  raffleQuantity : Nat
  raffleCode : JStr
deriving DecidableEq

/-- The raffle-creation half of `createEventWithRaffle`: composes the full
code `organizerCode + raffleCode`, rejects an existing raffle with exactly
that code, otherwise inserts the raffle row. -/
def insertRafflePart (db : DB) (o : Organizer) (eventId : Nat) (data : EventRaffleInput)
    (raffleInsertError : Option JStr) : DB × OpResult :=
  let fullRaffleCode := o.organizerCode ++ data.raffleCode
  match db.raffles.find? (fun raffle => raffle.code == fullRaffleCode) with
  | some _ => (db, ⟨false, msgCodeInUse⟩)
  | none =>
    match raffleInsertError with
    | some e => (db, ⟨false, msgRaffleCreateError e⟩)
    | none =>
      ({ db with
          raffles := db.raffles ++
            [⟨db.nextId, eventId, data.raffleName, data.raffleQuantity, fullRaffleCode⟩],
          nextId := db.nextId + 1 },
       ⟨true, msgRaffleAdded data.raffleName⟩)

/-- `createEventWithRaffle` from the source: requires a logged-in organizer,
reuses the selected event or inserts a new one dated now, then runs the
raffle-creation half. -/
def createEventWithRaffle (db : DB) (org : Option Organizer) (selectedEventId : Option Nat)
    (data : EventRaffleInput) (now : Nat) (eventInsertError raffleInsertError : Option JStr) :
    DB × OpResult :=
  match org with
  | none => (db, ⟨false, msgNotLoggedIn⟩)
  | some o =>
    match selectedEventOf db selectedEventId with
    | some ev => insertRafflePart db o ev.id data raffleInsertError
    | none =>
      match eventInsertError with
      | some e => (db, ⟨false, msgEventCreateError e⟩)
      | none =>
        insertRafflePart
          { db with
              events := db.events ++ [⟨db.nextId, data.eventName, now, o.id⟩],
              nextId := db.nextId + 1 }
          o db.nextId data raffleInsertError

/-- The raffle-code input of the `GerenciarSorteios` form upper-cases the
typed text on change, so the suffix submitted to `createEventWithRaffle` is
the upper-cased input. -/
def raffleCodeInputValue (typed : JStr) : JStr := jsToUpper typed

/-- An image-bearing mutation-payload field: a raw `File`, an existing URL
string, or nothing. -/
inductive ImageField where
  | file : Nat → ImageField
  | url : JStr → ImageField
  | absent : ImageField
deriving DecidableEq

/-- The form payload of `saveOrganizer` (`Omit<Organizer, 'id'>` plus the
credential field). -/
structure OrganizerForm where
  name : JStr
  responsibleName : JStr
  email : JStr
  phone : JStr
  photoUrl : ImageField
  organizerCode : JStr
  password : Option JStr
deriving DecidableEq

/-- The row write of `saveOrganizer` after the photo has been resolved:
maps `password` to `password_hash` (dropping the hash from an update when no
password was supplied) and updates or inserts the organizer row.
`writeError` is the store's possible rejection of the write. -/
def saveOrganizerWrite (db : DB) (form : OrganizerForm) (idOpt : Option Nat)
    (photo : Option JStr) (writeError : Option JStr) : DB × OpResult :=
  match writeError with
  | some e => (db, ⟨false, e⟩)
  | none =>
    match idOpt with
    | some i =>
      ({ db with
          organizers := db.organizers.map fun o =>
            if o.id == i then
              { o with
                  name := form.name, responsibleName := form.responsibleName,
                  email := form.email, phone := form.phone,
                  organizerCode := form.organizerCode, photoUrl := photo,
                  passwordHash :=
                    match form.password with
                    | some p => some p
                    | none => o.passwordHash }
            else o },
       ⟨true, msgOrganizerUpdated⟩)
    | none =>
      ({ db with
          organizers := db.organizers ++
            [⟨db.nextId, form.name, form.responsibleName, form.email, form.phone,
              photo, form.organizerCode, form.password⟩],
          nextId := db.nextId + 1 },
       ⟨true, msgOrganizerCreated⟩)

/-- `saveOrganizer` from the source. A raw file in the photo field is
uploaded first: on upload failure the mutation aborts with
`'Falha no upload da foto.'` and performs no write. When no image at all is
supplied on creation (absent or empty-string field, no id), the fixed
default URL is substituted. -/
def saveOrganizer (db : DB) (form : OrganizerForm) (idOpt : Option Nat)
    (uploadResult : Option JStr) (writeError : Option JStr) : DB × OpResult :=
  match form.photoUrl with
  | .file _ =>
    match uploadResult with
    | none => (db, ⟨false, msgPhotoUploadFail⟩)
    | some u => saveOrganizerWrite db form idOpt (some u) writeError
  | .url u =>
    if idOpt = none ∧ u = [] then
      saveOrganizerWrite db form idOpt (some DEFAULT_IMAGE_URL) writeError
    else saveOrganizerWrite db form idOpt (some u) writeError
  | .absent =>
    if idOpt = none then
      saveOrganizerWrite db form idOpt (some DEFAULT_IMAGE_URL) writeError
    else saveOrganizerWrite db form idOpt none writeError

/-- The form payload of `saveCompany`. -/
structure CompanyForm where
  name : JStr
  logoUrl : ImageField
deriving DecidableEq

/-- `saveCompany` from the source. Requires a selected event (otherwise
returns without writing). A raw file in the logo field is uploaded and the
field replaced by the resulting URL — which is null when the upload fails;
any falsy logo field (absent, empty, or a failed upload) is then replaced by
the fixed default URL, and the row write proceeds unconditionally. -/
def saveCompany (db : DB) (selectedEventId : Option Nat) (form : CompanyForm)
    (idOpt : Option Nat) (uploadResult : Option JStr) : DB :=
  match selectedEventOf db selectedEventId with
  | none => db
  | some ev =>
    let logoAfterUpload : Option JStr :=
      match form.logoUrl with
      | .file _ => uploadResult
      | .url u => some u
      | .absent => none
    let finalLogo : JStr :=
      match logoAfterUpload with
      | some u => if u = [] then DEFAULT_IMAGE_URL else u
      | none => DEFAULT_IMAGE_URL
    match idOpt with
    | some i =>
      { db with
          companies := db.companies.map fun c =>
            if c.id == i then { c with name := form.name, logoUrl := finalLogo, eventId := ev.id }
            else c }
    | none =>
      { db with
          companies := db.companies ++ [⟨db.nextId, ev.id, form.name, finalLogo⟩],
          nextId := db.nextId + 1 }

-- --------------------------------------------------------------------------
-- Auth / session state (the six persisted sticky values).
-- --------------------------------------------------------------------------

/-- The persisted session: organizer and collaborator records, the two
selections, the super-admin flag, and the impersonation flag. -/
structure Session where
  loggedInOrganizer : Option Organizer
  loggedInCollaborator : Option Collaborator
  selectedEventId : Option Nat
  selectedRaffleId : Option Nat
  isSuperAdmin : Bool
  impersonatingFromAdmin : Bool
deriving DecidableEq

/-- `logout` from the source: clears the organizer and both selections. -/
def logout (s : Session) : Session :=
  { s with loggedInOrganizer := none, selectedEventId := none, selectedRaffleId := none }

/-- `logoutSuperAdmin` from the source: clears the super-admin flag only. -/
def logoutSuperAdmin (s : Session) : Session := { s with isSuperAdmin := false }

/-- `logoutCollaborator` from the source: clears the collaborator only. -/
def logoutCollaborator (s : Session) : Session := { s with loggedInCollaborator := none }

/-- The organizer the context value exposes:
`impersonatingFromAdmin ? loggedInOrganizer : (isSuperAdmin ? null : loggedInOrganizer)`. -/
def effectiveLoggedInOrganizer (s : Session) : Option Organizer :=
  if s.impersonatingFromAdmin then s.loggedInOrganizer
  else if s.isSuperAdmin then none
  else s.loggedInOrganizer

-- --------------------------------------------------------------------------
-- The prize-wheel spin handlers.
-- --------------------------------------------------------------------------

/-- Placeholder for JavaScript's out-of-range `undefined`; unreachable under
the proved index bound. -/
def defaultPrize : Prize := ⟨0, 0, []⟩

/-- `handleSpin` of the public wheel page: gated on not yet spun, not
spinning, and at least two prizes; picks the prize at `⌊random · count⌋`. -/
def handleSpinPublic (prizes : List Prize) (isSpun isSpinning : Bool) (r : ℚ) :
    Option Prize :=
  if isSpun || isSpinning || decide (prizes.length < 2) then none
  else some (prizes.getD (drawIndex r prizes.length) defaultPrize)

/-- `handleSpin` of the collaborator wheel page: gated on not spinning and at
least two prizes. -/
def handleSpinCollab (prizes : List Prize) (isSpinning : Bool) (r : ℚ) : Option Prize :=
  if isSpinning || decide (prizes.length < 2) then none
  else some (prizes.getD (drawIndex r prizes.length) defaultPrize)

-- --------------------------------------------------------------------------
-- Operation sequences over the store (for the winner-count invariant).
-- --------------------------------------------------------------------------

/-- A registration or draw step, with its environment inputs. -/
inductive Op where
  | add : ParticipantInput → Option JStr → Op
  | draw : Option Nat → ℚ → Nat → Bool → Op

/-- Apply one step to the store. -/
def applyOp (db : DB) : Op → DB
  | .add pd insertError => (addParticipant db pd insertError).1
  | .draw selId r now updateOk => (drawWinner db selId r now updateOk).1

/-- Run a sequence of steps. -/
def runOps (db : DB) : List Op → DB
  | [] => db
  | op :: ops => runOps (applyOp db op) ops

-- --------------------------------------------------------------------------
-- Sample states and payloads used by concrete instances.
-- --------------------------------------------------------------------------

/-- A store with one raffle of quantity 2 and no participants. -/
def dbRegDemo : DB := ⟨[], [], [⟨1, 1, str "Prize", 2, str "C1"⟩], [], [], 10⟩

/-- A registration whose email contains an uppercase letter. -/
def pdUpperDemo : ParticipantInput := ⟨1, str "Ann", str "A@x.com", str "123"⟩

/-- A registration whose email is already lower-case. -/
def pdLowerDemo : ParticipantInput := ⟨1, str "Ann", str "ann@x.com", str "123"⟩

/-- A store with one raffle of quantity 1 and no participants. -/
def dbSeqDemo : DB := ⟨[], [], [⟨1, 1, str "P", 1, str "C"⟩], [], [], 10⟩

/-- First registration for the quantity-1 raffle. -/
def pdSeqA : ParticipantInput := ⟨1, str "a", str "a@x.com", str "1"⟩

/-- Second registration for the quantity-1 raffle. -/
def pdSeqB : ParticipantInput := ⟨1, str "b", str "b@x.com", str "1"⟩

/-- Register twice, then draw twice on the selected quantity-1 raffle. -/
def opsSeqDemo : List Op :=
  [.add pdSeqA none, .add pdSeqB none, .draw (some 1) 0 5 true, .draw (some 1) 0 6 true]

/-- A store with a quantity-1 raffle that already has one winner. -/
def dbCeilingDemo : DB :=
  ⟨[], [], [⟨1, 1, str "P", 1, str "C"⟩],
   [⟨2, 1, str "w", str "w@x.com", str "1", true, some 0⟩], [], 10⟩

/-- A fresh registration attempt against the full raffle. -/
def pdCeilingDemo : ParticipantInput := ⟨1, str "n", str "n@x.com", str "2"⟩

/-- A store with a selected raffle and two eligible participants. -/
def dbDrawDemo : DB :=
  ⟨[], [], [⟨1, 1, str "P", 3, str "C"⟩],
   [⟨2, 1, str "a", str "a@x.com", str "1", false, none⟩,
    ⟨3, 1, str "b", str "b@x.com", str "1", false, none⟩], [], 10⟩

/-- A store with one event (id 5) and no companies. -/
def dbCompanyDemo : DB := ⟨[], [⟨5, str "Ev", 0, 9⟩], [], [], [], 20⟩

/-- A company payload whose logo field holds a raw file. -/
def companyFormDemo : CompanyForm := ⟨str "Booth", .file 0⟩

/-- An organizer payload whose photo field holds a raw file. -/
def organizerFormDemo : OrganizerForm :=
  ⟨str "Org", str "Resp", str "org@x.com", str "1", .file 0, str "ABC", some (str "pw")⟩

/-- An organizer payload with no photo supplied. -/
def organizerFormNoPhoto : OrganizerForm :=
  ⟨str "Org", str "Resp", str "org@x.com", str "1", .absent, str "ABC", some (str "pw")⟩

/-- A sample organizer record. -/
def organizerDemo : Organizer :=
  ⟨1, str "Org", str "Resp", str "org@x.com", str "1", none, str "ABC", none⟩

/-- A nested value with underscore-separated keys. -/
def vSnakeDemo : JVal :=
  JVal.obj [(str "user_name", JVal.arr [JVal.obj [(str "photo_url", JVal.atom 1)]]),
            (str "id", JVal.atom 2)]

/-- A nested value with camel-cased keys. -/
def vCamelDemo : JVal :=
  JVal.obj [(str "userName", JVal.arr [JVal.obj [(str "photoUrl", JVal.atom 1)]]),
            (str "id", JVal.atom 2)]

/-- An object whose only key is `'confirm_password'`. -/
def vConfirmDemo : JVal := JVal.obj [(confirmSnakeKey, JVal.atom 0)]

/-- A nested mapping holding a sentinel entry and a camel-cased entry. -/
def procDemoInner : List (JStr × JVal) :=
  [(confirmPwdKey, JVal.atom 0), (str "fooBar", JVal.atom 1)]

/-- A value reaching `procDemoInner` one object level down. -/
def procDemoVal : JVal := JVal.obj [(str "data", JVal.obj procDemoInner)]

lemma lowerChar_upperChar {c : Nat} (h : isLowerChar c = true) :
    lowerChar (upperChar c) = c := by
  have h' : 97 ≤ c ∧ c ≤ 122 := by simpa [isLowerChar] using h
  have h1 : isUpperChar (c - 32) = true := by simp [isUpperChar]; omega
  simp [upperChar, h, lowerChar, h1]
  omega

lemma upperChar_lowerChar {c : Nat} (h : isUpperChar c = true) :
    upperChar (lowerChar c) = c := by
  have h' : 65 ≤ c ∧ c ≤ 90 := by simpa [isUpperChar] using h
  have h1 : isLowerChar (c + 32) = true := by simp [isLowerChar]; omega
  simp [lowerChar, h, upperChar, h1]

lemma isLowerChar_lowerChar {c : Nat} (h : isUpperChar c = true) :
    isLowerChar (lowerChar c) = true := by
  have h' : 65 ≤ c ∧ c ≤ 90 := by simpa [isUpperChar] using h
  simp [lowerChar, h, isLowerChar]
  omega

lemma isUpperChar_upperChar {c : Nat} (h : isLowerChar c = true) :
    isUpperChar (upperChar c) = true := by
  have h' : 97 ≤ c ∧ c ≤ 122 := by simpa [isLowerChar] using h
  simp [upperChar, h, isUpperChar]
  omega

lemma not_isUpperChar_underscore : isUpperChar underscoreChar = false := by decide

/-- A character that opens no regex match passes through `snakeToCamel`. -/
lemma snakeToCamel_cons_nomatch {c : Nat} (l : JStr)
    (h1 : c ≠ underscoreChar) (h2 : c ≠ hyphenChar) :
    snakeToCamel (c :: l) = c :: snakeToCamel l := by
  cases l with
  | nil => rfl
  | cons d rest => simp [snakeToCamel, h1, h2]

/-- Keys without uppercase letters and hyphens survive the
underscore → camel → underscore round trip. -/
lemma camelToSnake_snakeToCamel :
    ∀ l : JStr, (∀ c ∈ l, isUpperChar c = false ∧ c ≠ hyphenChar) →
    camelToSnake (snakeToCamel l) = l := by
  intro l
  induction l using snakeToCamel.induct with
  | case1 => intro _; rfl
  | case2 c =>
    intro h
    have hc := h c (by simp)
    simp [snakeToCamel, camelToSnake, hc.1]
  | case3 c d rest hcond ih =>
    intro h
    have hc := h c (by simp)
    have hd := h d (by simp)
    have hc' : c = underscoreChar := by
      rcases hcond.1 with h' | h'
      · exact h'
      · exact absurd h' hc.2
    have hup : isUpperChar (upperChar d) = true := isUpperChar_upperChar hcond.2
    simp [snakeToCamel, hcond.1, hcond.2, hc', camelToSnake, hup,
      lowerChar_upperChar hcond.2]
    exact ih fun c hc => h c (by simp [hc])
  | case4 c d rest hcond ih =>
    intro h
    have hc := h c (by simp)
    simp only [snakeToCamel, if_neg hcond]
    simp [camelToSnake, hc.1]
    exact ih fun e he => h e (List.mem_cons_of_mem _ he)

/-- Keys without underscores and hyphens survive the
camel → underscore → camel round trip. -/
lemma snakeToCamel_camelToSnake :
    ∀ l : JStr, (∀ c ∈ l, c ≠ underscoreChar ∧ c ≠ hyphenChar) →
    snakeToCamel (camelToSnake l) = l := by
  intro l
  induction l with
  | nil => intro _; rfl
  | cons c rest ih =>
    intro h
    have hc := h c (by simp)
    have hrest : ∀ e ∈ rest, e ≠ underscoreChar ∧ e ≠ hyphenChar :=
      fun e he => h e (by simp [he])
    by_cases hu : isUpperChar c = true
    · have hlow : isLowerChar (lowerChar c) = true := isLowerChar_lowerChar hu
      simp only [camelToSnake, hu, if_true]
      simp [snakeToCamel, hlow, upperChar_lowerChar hu, ih hrest]
    · have hu' : isUpperChar c = false := by simpa using hu
      simp only [camelToSnake, hu', Bool.false_eq_true, if_false, List.singleton_append]
      rw [snakeToCamel_cons_nomatch _ hc.1 hc.2, ih hrest]

/-- If `camelToSnake` produces a string without underscores, it was the
identity on its input. -/
lemma eq_of_camelToSnake_no_underscore :
    ∀ l m : JStr, camelToSnake l = m → underscoreChar ∉ m → l = m := by
  intro l
  induction l with
  | nil => intro m hm _; exact hm
  | cons c rest ih =>
    intro m hm hnotin
    by_cases hu : isUpperChar c = true
    · exfalso
      apply hnotin
      rw [← hm]
      simp [camelToSnake, hu]
    · have hu' : isUpperChar c = false := by simpa using hu
      simp only [camelToSnake, hu', Bool.false_eq_true, if_false] at hm
      cases m with
      | nil => simp at hm
      | cons b bs =>
        simp only [List.singleton_append, List.cons.injEq] at hm
        have := ih bs hm.2 (fun hmem => hnotin (by simp [hmem]))
        simp [hm.1, this]

/-- `camelToSnake` never outputs a credential-sentinel key unless its input
was the key `'password'` itself. -/
lemma isSentinel_camelToSnake {k : JStr} (h : isSentinel k = false) :
    isSentinel (camelToSnake k) = false := by
  by_contra hcon
  simp only [Bool.not_eq_false] at hcon
  have hcon' : camelToSnake k = pwdKey ∨ camelToSnake k = confirmPwdKey := by
    simpa [isSentinel] using hcon
  rcases hcon' with h' | h'
  · have : k = pwdKey := eq_of_camelToSnake_no_underscore k pwdKey h' (by decide)
    simp [isSentinel, this] at h
  · have : k = confirmPwdKey :=
      eq_of_camelToSnake_no_underscore k confirmPwdKey h' (by decide)
    simp [isSentinel, this] at h

/-- The camel-cased image of a well-formed underscore key is a sentinel key
only for the excluded inputs `'password'` and `'confirm_password'`. -/
lemma isSentinel_snakeToCamel {k : JStr} (hk : snakeKeyOk k = true)
    (hs : isSentinel k = false) (hc : (k == confirmSnakeKey) = false) :
    isSentinel (snakeToCamel k) = false := by
  have hall : ∀ c ∈ k, isUpperChar c = false ∧ c ≠ hyphenChar := by
    intro c hmem
    have := List.all_eq_true.mp hk c hmem
    simp only [Bool.and_eq_true, Bool.not_eq_true', beq_eq_false_iff_ne, ne_eq] at this
    exact this
  have hrt : camelToSnake (snakeToCamel k) = k := camelToSnake_snakeToCamel k hall
  by_contra hcon
  simp only [Bool.not_eq_false] at hcon
  have hcon' : snakeToCamel k = pwdKey ∨ snakeToCamel k = confirmPwdKey := by
    simpa [isSentinel] using hcon
  rcases hcon' with h' | h'
  · rw [h'] at hrt
    have : k = pwdKey := by rw [← hrt]; decide
    simp [isSentinel, this] at hs
  · rw [h'] at hrt
    have : k = confirmSnakeKey := by rw [← hrt]; decide
    simp [this] at hc

mutual

lemma toSnake_toCamel : ∀ v : JVal, snakeOk v = true → toSnake (toCamel v) = v
  | .atom _, _ => rfl
  | .arr vs, h => by
    simp only [toCamel, toSnake]
    rw [toSnake_toCamel_list vs h]
  | .obj kvs, h => by
    simp only [toCamel, toSnake]
    rw [toSnake_toCamel_obj kvs h]

lemma toSnake_toCamel_list :
    ∀ vs : List JVal, snakeOkList vs = true → toSnakeList (toCamelList vs) = vs
  | [], _ => rfl
  | v :: vs, h => by
    have h' : snakeOk v = true ∧ snakeOkList vs = true := by
      simpa [snakeOkList] using h
    simp only [toCamelList, toSnakeList]
    rw [toSnake_toCamel v h'.1, toSnake_toCamel_list vs h'.2]

lemma toSnake_toCamel_obj :
    ∀ kvs : List (JStr × JVal), snakeOkObj kvs = true → toSnakeObj (toCamelObj kvs) = kvs
  | [], _ => rfl
  | (k, v) :: kvs, h => by
    have h' := h
    simp only [snakeOkObj, Bool.and_eq_true, Bool.not_eq_true', beq_eq_false_iff_ne,
      ne_eq] at h'
    obtain ⟨⟨⟨⟨hk, hs⟩, hcf⟩, hv⟩, hrest⟩ := h'
    have hcf' : (k == confirmSnakeKey) = false := by simpa using hcf
    have hns : isSentinel (snakeToCamel k) = false := isSentinel_snakeToCamel hk hs hcf'
    have hall : ∀ c ∈ k, isUpperChar c = false ∧ c ≠ hyphenChar := by
      intro c hmem
      have := List.all_eq_true.mp hk c hmem
      simpa [Bool.and_eq_true] using this
    simp only [toCamelObj]
    have e2 : toSnakeObj ((snakeToCamel k, toCamel v) :: toCamelObj kvs) =
        (camelToSnake (snakeToCamel k), toSnake (toCamel v)) :: toSnakeObj (toCamelObj kvs) := by
      simp [toSnakeObj, hns]
    rw [e2, camelToSnake_snakeToCamel k hall, toSnake_toCamel v hv,
      toSnake_toCamel_obj kvs hrest]

end

mutual

lemma toCamel_toSnake : ∀ v : JVal, camelOk v = true → toCamel (toSnake v) = v
  | .atom _, _ => rfl
  | .arr vs, h => by
    simp only [toCamel, toSnake]
    rw [toCamel_toSnake_list vs h]
  | .obj kvs, h => by
    simp only [toCamel, toSnake]
    rw [toCamel_toSnake_obj kvs h]

lemma toCamel_toSnake_list :
    ∀ vs : List JVal, camelOkList vs = true → toCamelList (toSnakeList vs) = vs
  | [], _ => rfl
  | v :: vs, h => by
    have h' : camelOk v = true ∧ camelOkList vs = true := by
      simpa [camelOkList] using h
    simp only [toCamelList, toSnakeList]
    rw [toCamel_toSnake v h'.1, toCamel_toSnake_list vs h'.2]

lemma toCamel_toSnake_obj :
    ∀ kvs : List (JStr × JVal), camelOkObj kvs = true → toCamelObj (toSnakeObj kvs) = kvs
  | [], _ => rfl
  | (k, v) :: kvs, h => by
    have h' := h
    simp only [camelOkObj, Bool.and_eq_true, Bool.not_eq_true'] at h'
    obtain ⟨⟨⟨hk, hs⟩, hv⟩, hrest⟩ := h'
    have hall : ∀ c ∈ k, c ≠ underscoreChar ∧ c ≠ hyphenChar := by
      intro c hmem
      have := List.all_eq_true.mp hk c hmem
      simpa [Bool.and_eq_true] using this
    have e1 : toSnakeObj ((k, v) :: kvs) =
        (camelToSnake k, toSnake v) :: toSnakeObj kvs := by
      simp [toSnakeObj, hs]
    rw [e1]
    simp only [toCamelObj]
    rw [snakeToCamel_camelToSnake k hall, toCamel_toSnake v hv,
      toCamel_toSnake_obj kvs hrest]

end

-- --------------------------------------------------------------------------
-- Draw-index helpers.
-- --------------------------------------------------------------------------

lemma drawIndex_zero (n : Nat) : drawIndex 0 n = 0 := by
  simp [drawIndex]

lemma drawIndex_lt {r : ℚ} {n : Nat} (h0 : 0 ≤ r) (h1 : r < 1) (hn : 0 < n) :
    drawIndex r n < n := by
  have hnq : (0 : ℚ) < n := by exact_mod_cast hn
  have hmul : r * (n : ℚ) < n := by
    calc r * (n : ℚ) < 1 * n := mul_lt_mul_of_pos_right h1 hnq
    _ = n := one_mul _
  have hfl : Int.floor (r * (n : ℚ)) < (n : ℤ) := by
    rw [Int.floor_lt]
    exact_mod_cast hmul
  have hnn : (0 : ℤ) ≤ Int.floor (r * (n : ℚ)) :=
    Int.floor_nonneg.mpr (mul_nonneg h0 (le_of_lt hnq))
  unfold drawIndex
  omega

/-- Evaluation of `drawWinner` at random value 0 with an accepting store:
the first eligible participant is drawn. -/
lemma drawWinner_zero (db : DB) (selId : Option Nat) (now : Nat) :
    drawWinner db selId 0 now true =
      match selectedRaffleOf db selId with
      | none => (db, none)
      | some raf =>
        match eligibleOf db raf.id with
        | [] => (db, none)
        | w :: _ =>
          ({ db with
              participants := db.participants.map fun p =>
                if p.id == w.id then markWinner p now else p },
           some (markWinner w now)) := by
  unfold drawWinner
  cases h : selectedRaffleOf db selId with
  | none => rfl
  | some raf =>
    cases helig : eligibleOf db raf.id with
    | nil => simp [helig]
    | cons w rest => simp [helig, drawIndex_zero]

-- --------------------------------------------------------------------------
-- C4: identity precedence.
-- --------------------------------------------------------------------------

/-- C4: the organizer the context exposes follows the precedence
impersonation → organizer; else super-admin → none; else stored organizer.
Concretely, impersonation with super-admin still yields the stored
organizer, and super-admin without impersonation yields none even when an
organizer is stored. -/
theorem c4_identity_precedence :
    (∀ s : Session, s.impersonatingFromAdmin = true →
      effectiveLoggedInOrganizer s = s.loggedInOrganizer) ∧
    (∀ s : Session, s.impersonatingFromAdmin = false → s.isSuperAdmin = true →
      effectiveLoggedInOrganizer s = none) ∧
    (∀ s : Session, s.impersonatingFromAdmin = false → s.isSuperAdmin = false →
      effectiveLoggedInOrganizer s = s.loggedInOrganizer) ∧
    (∀ (o : Organizer) (c : Option Collaborator) (e i : Option Nat),
      effectiveLoggedInOrganizer ⟨some o, c, e, i, true, true⟩ = some o ∧
      effectiveLoggedInOrganizer ⟨some o, c, e, i, true, false⟩ = none) := by
  refine ⟨?_, ?_, ?_, ?_⟩
  · intro s h
    simp [effectiveLoggedInOrganizer, h]
  · intro s h1 h2
    simp [effectiveLoggedInOrganizer, h1, h2]
  · intro s h1 h2
    simp [effectiveLoggedInOrganizer, h1, h2]
  · intro o c e i
    exact ⟨by simp [effectiveLoggedInOrganizer], by simp [effectiveLoggedInOrganizer]⟩

/-- Witness for C4 at a concrete session. -/
theorem c4_identity_precedence_witness :
    effectiveLoggedInOrganizer ⟨some organizerDemo, none, none, none, true, true⟩ =
      some organizerDemo ∧
    effectiveLoggedInOrganizer ⟨some organizerDemo, none, none, none, true, false⟩ = none ∧
    effectiveLoggedInOrganizer ⟨some organizerDemo, none, none, none, false, false⟩ =
      some organizerDemo :=
  ⟨(c4_identity_precedence.2.2.2 organizerDemo none none none).1,
   c4_identity_precedence.2.1 ⟨some organizerDemo, none, none, none, true, false⟩ rfl rfl,
   c4_identity_precedence.2.2.1 ⟨some organizerDemo, none, none, none, false, false⟩ rfl rfl⟩

-- --------------------------------------------------------------------------
-- C8: logout frame effects.
-- --------------------------------------------------------------------------

/-- C8: `logout` clears the organizer session and both selections and leaves
the collaborator session, the super-admin flag and the impersonation flag
unchanged; `logoutSuperAdmin` clears only the super-admin flag;
`logoutCollaborator` clears only the collaborator session. -/
theorem c8_logout_frame (s : Session) :
    (logout s).loggedInOrganizer = none ∧
    (logout s).selectedEventId = none ∧
    (logout s).selectedRaffleId = none ∧
    (logout s).loggedInCollaborator = s.loggedInCollaborator ∧
    (logout s).isSuperAdmin = s.isSuperAdmin ∧
    (logout s).impersonatingFromAdmin = s.impersonatingFromAdmin ∧
    (logoutSuperAdmin s).isSuperAdmin = false ∧
    (logoutSuperAdmin s).loggedInOrganizer = s.loggedInOrganizer ∧
    (logoutSuperAdmin s).loggedInCollaborator = s.loggedInCollaborator ∧
    (logoutSuperAdmin s).selectedEventId = s.selectedEventId ∧
    (logoutSuperAdmin s).selectedRaffleId = s.selectedRaffleId ∧
    (logoutSuperAdmin s).impersonatingFromAdmin = s.impersonatingFromAdmin ∧
    (logoutCollaborator s).loggedInCollaborator = none ∧
    (logoutCollaborator s).loggedInOrganizer = s.loggedInOrganizer ∧
    (logoutCollaborator s).selectedEventId = s.selectedEventId ∧
    (logoutCollaborator s).selectedRaffleId = s.selectedRaffleId ∧
    (logoutCollaborator s).isSuperAdmin = s.isSuperAdmin ∧
    (logoutCollaborator s).impersonatingFromAdmin = s.impersonatingFromAdmin := by
  and_intros <;> rfl

-- --------------------------------------------------------------------------
-- C10: random selection indices are in bounds.
-- --------------------------------------------------------------------------

/-- C10: for every random value `0 ≤ r < 1` and nonempty pool of size `n`,
the computed index `⌊r · n⌋` is in `[0, n)`, so the selected element exists;
the wheel handlers return nothing when fewer than two prizes are configured,
and otherwise return the prize at the (in-bounds) computed index. -/
theorem c10_draw_index_in_bounds :
    (∀ (r : ℚ) (n : Nat), 0 ≤ r → r < 1 → 0 < n → drawIndex r n < n) ∧
    (∀ (db : DB) (selId : Option Nat) (raf : Raffle) (r : ℚ),
      selectedRaffleOf db selId = some raf → eligibleOf db raf.id ≠ [] →
      0 ≤ r → r < 1 →
      drawIndex r (eligibleOf db raf.id).length < (eligibleOf db raf.id).length) ∧
    (∀ (prizes : List Prize) (isSpun isSpinning : Bool) (r : ℚ),
      prizes.length < 2 →
      handleSpinPublic prizes isSpun isSpinning r = none ∧
      handleSpinCollab prizes isSpinning r = none) ∧
    (∀ (prizes : List Prize) (r : ℚ), 0 ≤ r → r < 1 → 2 ≤ prizes.length →
      drawIndex r prizes.length < prizes.length ∧
      handleSpinPublic prizes false false r =
        some (prizes.getD (drawIndex r prizes.length) defaultPrize) ∧
      handleSpinCollab prizes false r =
        some (prizes.getD (drawIndex r prizes.length) defaultPrize) ∧
      prizes.getD (drawIndex r prizes.length) defaultPrize ∈ prizes) := by
  refine ⟨fun r n h0 h1 hn => drawIndex_lt h0 h1 hn, ?_, ?_, ?_⟩
  · intro db selId raf r _ hne h0 h1
    exact drawIndex_lt h0 h1 (List.length_pos.mpr hne)
  · intro prizes isSpun isSpinning r hlt
    constructor
    · simp [handleSpinPublic, hlt]
    · simp [handleSpinCollab, hlt]
  · intro prizes r h0 h1 hlen
    have hn : 0 < prizes.length := by omega
    have hidx := drawIndex_lt h0 h1 hn
    have hnot : ¬ prizes.length < 2 := by omega
    refine ⟨hidx, ?_, ?_, ?_⟩
    · simp [handleSpinPublic, hnot]
    · simp [handleSpinCollab, hnot]
    · rw [List.getD_eq_getElem prizes defaultPrize hidx]
      exact List.getElem_mem hidx

/-- Witness for C10 at `r = 0` with a two-prize pool and the draw store. -/
theorem c10_draw_index_in_bounds_witness :
    drawIndex 0 2 < 2 ∧
    (selectedRaffleOf dbDrawDemo (some 1) = some ⟨1, 1, str "P", 3, str "C"⟩ ∧
      eligibleOf dbDrawDemo 1 ≠ [] ∧
      drawIndex 0 (eligibleOf dbDrawDemo 1).length < (eligibleOf dbDrawDemo 1).length) ∧
    handleSpinPublic [defaultPrize] false false 0 = none :=
  ⟨c10_draw_index_in_bounds.1 0 2 (le_refl 0) zero_lt_one (by decide),
   ⟨by decide, by decide,
    c10_draw_index_in_bounds.2.1 dbDrawDemo (some 1) ⟨1, 1, str "P", 3, str "C"⟩ 0
      (by decide) (by decide) (le_refl 0) zero_lt_one⟩,
   (c10_draw_index_in_bounds.2.2.1 [defaultPrize] false false 0 (by decide)).1⟩

-- --------------------------------------------------------------------------
-- C3: drawWinner specification.
-- --------------------------------------------------------------------------

/-- C3: `drawWinner` returns no winner when no raffle is selected or the
selected raffle has no eligible (winner-flag-false) participants, and no
winner when the store rejects the update; otherwise it picks a member of the
fetched eligible set, updates exactly that participant's row to a winner
with the draw timestamp, and returns the updated participant, which belongs
to the selected raffle and had the winner flag false when fetched. -/
theorem c3_drawWinner_spec (db : DB) (selId : Option Nat) (r : ℚ) (now : Nat)
    (updateOk : Bool) :
    (selectedRaffleOf db selId = none → drawWinner db selId r now updateOk = (db, none)) ∧
    (∀ raf, selectedRaffleOf db selId = some raf → eligibleOf db raf.id = [] →
      drawWinner db selId r now updateOk = (db, none)) ∧
    (updateOk = false → (drawWinner db selId r now updateOk).2 = none) ∧
    (∀ raf, selectedRaffleOf db selId = some raf → eligibleOf db raf.id ≠ [] →
      0 ≤ r → r < 1 → updateOk = true →
      ∃ w, w ∈ eligibleOf db raf.id ∧
        drawWinner db selId r now updateOk =
          ({ db with
              participants := db.participants.map fun p =>
                if p.id == w.id then markWinner p now else p },
           some (markWinner w now)) ∧
        w.raffleId = raf.id ∧ w.isWinner = false ∧ w ∈ db.participants ∧
        (markWinner w now).raffleId = raf.id ∧
        ((db.participants.map Participant.id).Nodup →
          ∀ p ∈ db.participants, p.id = w.id → p = w)) := by
  refine ⟨?_, ?_, ?_, ?_⟩
  · intro h
    simp [drawWinner, h]
  · intro raf hsel he
    simp [drawWinner, hsel, he]
  · intro hup
    subst hup
    cases hsel : selectedRaffleOf db selId with
    | none => simp [drawWinner, hsel]
    | some raf =>
      by_cases hlen : (eligibleOf db raf.id).length = 0
      · simp [drawWinner, hsel, hlen]
      · simp [drawWinner, hsel, hlen]
  · intro raf hsel hne h0 h1 hup
    subst hup
    have hn : 0 < (eligibleOf db raf.id).length := List.length_pos.mpr hne
    have hidx := drawIndex_lt h0 h1 hn
    refine ⟨(eligibleOf db raf.id).getD (drawIndex r (eligibleOf db raf.id).length)
      defaultParticipant, ?_, ?_, ?_⟩
    · rw [List.getD_eq_getElem _ _ hidx]
      exact List.getElem_mem hidx
    · have hlen : ¬ (eligibleOf db raf.id).length = 0 := by omega
      simp [drawWinner, hsel, hlen]
    · have hmem : (eligibleOf db raf.id).getD (drawIndex r (eligibleOf db raf.id).length)
          defaultParticipant ∈ eligibleOf db raf.id := by
        rw [List.getD_eq_getElem _ _ hidx]
        exact List.getElem_mem hidx
      have hfil := List.mem_filter.mp hmem
      have hprops : ((eligibleOf db raf.id).getD (drawIndex r (eligibleOf db raf.id).length)
          defaultParticipant).raffleId = raf.id ∧
          ((eligibleOf db raf.id).getD (drawIndex r (eligibleOf db raf.id).length)
          defaultParticipant).isWinner = false := by
        have := hfil.2
        simp only [Bool.and_eq_true, beq_iff_eq, Bool.not_eq_true'] at this
        exact this
      refine ⟨hprops.1, hprops.2, hfil.1, hprops.1, ?_⟩
      intro hnodup p hp hid
      exact List.inj_on_of_nodup_map hnodup hp hfil.1 hid

/-- Witness for C3 at the sample draw store with `r = 0`. -/
theorem c3_drawWinner_spec_witness :
    drawWinner dbDrawDemo none 0 7 true = (dbDrawDemo, none) ∧
    (∃ w, w ∈ eligibleOf dbDrawDemo 1 ∧
      drawWinner dbDrawDemo (some 1) 0 7 true =
        ({ dbDrawDemo with
            participants := dbDrawDemo.participants.map fun p =>
              if p.id == w.id then markWinner p 7 else p },
         some (markWinner w 7)) ∧
      w.raffleId = 1 ∧ w.isWinner = false ∧ w ∈ dbDrawDemo.participants ∧
      (markWinner w 7).raffleId = 1 ∧
      ((dbDrawDemo.participants.map Participant.id).Nodup →
        ∀ p ∈ dbDrawDemo.participants, p.id = w.id → p = w)) :=
  ⟨(c3_drawWinner_spec dbDrawDemo none 0 7 true).1 rfl,
   (c3_drawWinner_spec dbDrawDemo (some 1) 0 7 true).2.2.2 ⟨1, 1, str "P", 3, str "C"⟩
     (by decide) (by decide) (le_refl 0) zero_lt_one rfl⟩

-- --------------------------------------------------------------------------
-- addParticipant branch lemmas.
-- --------------------------------------------------------------------------

/-- The duplicate-email query condition, in propositional form. -/
lemma dupCond_iff (pd : ParticipantInput) (p : Participant) :
    (p.email == jsToLower pd.email && p.raffleId == pd.raffleId) = true ↔
    p.email = jsToLower pd.email ∧ p.raffleId = pd.raffleId := by
  simp [Bool.and_eq_true]

lemma addParticipant_notFound (db : DB) (pd : ParticipantInput) (insertError : Option JStr)
    (hraf : db.raffles.find? (fun raffle => raffle.id == pd.raffleId) = none) :
    addParticipant db pd insertError = (db, ⟨false, msgRaffleNotFound⟩) := by
  simp [addParticipant, hraf]

lemma addParticipant_dup (db : DB) (pd : ParticipantInput) (insertError : Option JStr)
    (raffle : Raffle)
    (hraf : db.raffles.find? (fun raffle => raffle.id == pd.raffleId) = some raffle)
    (hex : ∃ p ∈ db.participants, p.email = jsToLower pd.email ∧ p.raffleId = pd.raffleId) :
    addParticipant db pd insertError = (db, ⟨false, msgEmailTaken⟩) := by
  obtain ⟨p, hp, hcond⟩ := hex
  have hsome : (db.participants.find?
      (fun p => p.email == jsToLower pd.email && p.raffleId == pd.raffleId)).isSome := by
    rw [List.find?_isSome]
    exact ⟨p, hp, (dupCond_iff pd p).mpr hcond⟩
  obtain ⟨q, hq⟩ := Option.isSome_iff_exists.mp hsome
  simp [addParticipant, hraf, hq]

lemma addParticipant_ceiling (db : DB) (pd : ParticipantInput) (insertError : Option JStr)
    (raffle : Raffle)
    (hraf : db.raffles.find? (fun raffle => raffle.id == pd.raffleId) = some raffle)
    (hnone : ∀ p ∈ db.participants,
      ¬(p.email = jsToLower pd.email ∧ p.raffleId = pd.raffleId))
    (hcnt : raffle.quantity ≤ winnerCount db pd.raffleId) :
    addParticipant db pd insertError = (db, ⟨false, msgLimitReached raffle.name⟩) := by
  have hfnone : db.participants.find?
      (fun p => p.email == jsToLower pd.email && p.raffleId == pd.raffleId) = none := by
    rw [List.find?_eq_none]
    intro p hp hcond
    exact hnone p hp ((dupCond_iff pd p).mp hcond)
  simp [addParticipant, hraf, hfnone, hcnt]

lemma addParticipant_insert (db : DB) (pd : ParticipantInput) (raffle : Raffle)
    (hraf : db.raffles.find? (fun raffle => raffle.id == pd.raffleId) = some raffle)
    (hnone : ∀ p ∈ db.participants,
      ¬(p.email = jsToLower pd.email ∧ p.raffleId = pd.raffleId))
    (hcnt : winnerCount db pd.raffleId < raffle.quantity) :
    addParticipant db pd none =
      ({ db with
          participants := db.participants ++
            [⟨db.nextId, pd.raffleId, pd.name, pd.email, pd.phone, false, none⟩],
          nextId := db.nextId + 1 },
       ⟨true, msgRegistered⟩) := by
  have hfnone : db.participants.find?
      (fun p => p.email == jsToLower pd.email && p.raffleId == pd.raffleId) = none := by
    rw [List.find?_eq_none]
    intro p hp hcond
    exact hnone p hp ((dupCond_iff pd p).mp hcond)
  have hlt : ¬ raffle.quantity ≤ winnerCount db pd.raffleId := by omega
  simp [addParticipant, hraf, hfnone, hlt]

-- --------------------------------------------------------------------------
-- C1: addParticipant specification.
-- --------------------------------------------------------------------------

/-- C1 (amended): `addParticipant` fails with the not-found result when no
raffle matches, with the duplicate-email conflict when a stored participant
of the raffle has the lower-cased input email, with the ceiling message when
the winner count has reached the raffle's quantity, and otherwise (with the
store accepting the insert) appends a participant row with the winner flag
false. With a raffle of quantity 2, no participants, and an email equal to
its own lower-casing, registering that email twice succeeds first and fails
second with the conflict result (for an email containing uppercase letters,
both calls succeed, since the row is inserted with the raw email while the
duplicate check compares the lower-cased input). -/
theorem c1_addParticipant_spec :
    (∀ (db : DB) (pd : ParticipantInput),
      db.raffles.find? (fun raffle => raffle.id == pd.raffleId) = none →
      addParticipant db pd none = (db, ⟨false, msgRaffleNotFound⟩)) ∧
    (∀ (db : DB) (pd : ParticipantInput) (raffle : Raffle),
      db.raffles.find? (fun raffle => raffle.id == pd.raffleId) = some raffle →
      (∃ p ∈ db.participants, p.email = jsToLower pd.email ∧ p.raffleId = pd.raffleId) →
      addParticipant db pd none = (db, ⟨false, msgEmailTaken⟩)) ∧
    (∀ (db : DB) (pd : ParticipantInput) (raffle : Raffle),
      db.raffles.find? (fun raffle => raffle.id == pd.raffleId) = some raffle →
      (∀ p ∈ db.participants, ¬(p.email = jsToLower pd.email ∧ p.raffleId = pd.raffleId)) →
      raffle.quantity ≤ winnerCount db pd.raffleId →
      addParticipant db pd none = (db, ⟨false, msgLimitReached raffle.name⟩)) ∧
    (∀ (db : DB) (pd : ParticipantInput) (raffle : Raffle),
      db.raffles.find? (fun raffle => raffle.id == pd.raffleId) = some raffle →
      (∀ p ∈ db.participants, ¬(p.email = jsToLower pd.email ∧ p.raffleId = pd.raffleId)) →
      winnerCount db pd.raffleId < raffle.quantity →
      addParticipant db pd none =
        ({ db with
            participants := db.participants ++
              [⟨db.nextId, pd.raffleId, pd.name, pd.email, pd.phone, false, none⟩],
            nextId := db.nextId + 1 },
         ⟨true, msgRegistered⟩)) ∧
    (∀ (db : DB) (pd : ParticipantInput) (raffle : Raffle),
      db.participants = [] →
      db.raffles.find? (fun raffle => raffle.id == pd.raffleId) = some raffle →
      2 ≤ raffle.quantity →
      jsToLower pd.email = pd.email →
      (addParticipant db pd none).2 = ⟨true, msgRegistered⟩ ∧
      (addParticipant (addParticipant db pd none).1 pd none).2 = ⟨false, msgEmailTaken⟩) := by
  refine ⟨?_, ?_, ?_, ?_, ?_⟩
  · intro db pd hraf
    exact addParticipant_notFound db pd none hraf
  · intro db pd raffle hraf hex
    exact addParticipant_dup db pd none raffle hraf hex
  · intro db pd raffle hraf hnone hcnt
    exact addParticipant_ceiling db pd none raffle hraf hnone hcnt
  · intro db pd raffle hraf hnone hcnt
    exact addParticipant_insert db pd raffle hraf hnone hcnt
  · intro db pd raffle hemp hraf hq hlow
    have hnone : ∀ p ∈ db.participants,
        ¬(p.email = jsToLower pd.email ∧ p.raffleId = pd.raffleId) := by
      rw [hemp]
      simp
    have hcnt : winnerCount db pd.raffleId < raffle.quantity := by
      have : winnerCount db pd.raffleId = 0 := by
        simp [winnerCount, hemp]
      omega
    have hfirst := addParticipant_insert db pd raffle hraf hnone hcnt
    set row : Participant :=
      ⟨db.nextId, pd.raffleId, pd.name, pd.email, pd.phone, false, none⟩ with hrow
    set db2 : DB :=
      { db with participants := db.participants ++ [row], nextId := db.nextId + 1 }
      with hdb2
    have hfirst1 : (addParticipant db pd none).1 = db2 := by
      rw [hfirst]
    refine ⟨by rw [hfirst], ?_⟩
    rw [hfirst1]
    have hraf2 : db2.raffles.find? (fun raffle => raffle.id == pd.raffleId) = some raffle :=
      hraf
    have hex2 : ∃ p ∈ db2.participants,
        p.email = jsToLower pd.email ∧ p.raffleId = pd.raffleId := by
      refine ⟨row, by simp [hdb2], ?_, rfl⟩
      rw [hlow]
    rw [addParticipant_dup db2 pd none raffle hraf2 hex2]

/-- C1 counterexample: with a raffle of quantity 2 and no participants, the
email `"A@x.com"` (containing an uppercase letter) registers successfully
twice — the second call does not fail with the conflict result, because the
row was inserted with the raw email while the duplicate check compares the
lower-cased input. -/
theorem c1_counterexample :
    dbRegDemo.participants = [] ∧
    (∀ raffle ∈ dbRegDemo.raffles, raffle.quantity = 2) ∧
    (addParticipant dbRegDemo pdUpperDemo none).2.success = true ∧
    (addParticipant (addParticipant dbRegDemo pdUpperDemo none).1 pdUpperDemo none).2.success
      = true :=
  ⟨by decide, by decide, by decide, by decide⟩

/-- Witness for C1 with a lower-case email on the quantity-2 raffle. -/
theorem c1_addParticipant_spec_witness :
    (addParticipant dbRegDemo pdLowerDemo none).2 = ⟨true, msgRegistered⟩ ∧
    (addParticipant (addParticipant dbRegDemo pdLowerDemo none).1 pdLowerDemo none).2 =
      ⟨false, msgEmailTaken⟩ :=
  c1_addParticipant_spec.2.2.2.2 dbRegDemo pdLowerDemo ⟨1, 1, str "Prize", 2, str "C1"⟩
    (by decide) (by decide) (by decide) (by decide)

-- --------------------------------------------------------------------------
-- C2: the winner-count ceiling.
-- --------------------------------------------------------------------------

/-- `addParticipant` never changes a raffle's winner count. -/
lemma winnerCount_addParticipant (db : DB) (pd : ParticipantInput)
    (insertError : Option JStr) (raffleId : Nat) :
    winnerCount (addParticipant db pd insertError).1 raffleId = winnerCount db raffleId := by
  simp only [addParticipant]
  split
  · rfl
  · split
    · rfl
    · split
      · rfl
      · split
        · rfl
        · simp [winnerCount, List.filter_append]

/-- C2 (amended): the registration-time check makes `addParticipant` fail
with the ceiling message once the winner count has reached the raffle's
quantity, and a registration never changes the winner count, so the bound is
maintained under sequences of registrations alone; the draw itself is not
prevented (see the counterexample), and with quantity 1 and one existing
winner a new registration fails with the ceiling message while `drawWinner`
(no eligible participants remaining) returns no winner. -/
theorem c2_winner_ceiling :
    (∀ (db : DB) (pd : ParticipantInput) (insertError : Option JStr) (raffleId : Nat),
      winnerCount (addParticipant db pd insertError).1 raffleId = winnerCount db raffleId) ∧
    (∀ (db : DB) (pd : ParticipantInput) (raffle : Raffle),
      db.raffles.find? (fun raffle => raffle.id == pd.raffleId) = some raffle →
      (∀ p ∈ db.participants, ¬(p.email = jsToLower pd.email ∧ p.raffleId = pd.raffleId)) →
      raffle.quantity ≤ winnerCount db pd.raffleId →
      addParticipant db pd none = (db, ⟨false, msgLimitReached raffle.name⟩)) ∧
    (∀ (db : DB) (selId : Option Nat) (raf : Raffle) (r : ℚ) (now : Nat) (updateOk : Bool),
      selectedRaffleOf db selId = some raf → eligibleOf db raf.id = [] →
      (drawWinner db selId r now updateOk).2 = none) ∧
    (addParticipant dbCeilingDemo pdCeilingDemo none =
        (dbCeilingDemo, ⟨false, msgLimitReached (str "P")⟩) ∧
      (drawWinner dbCeilingDemo (some 1) 0 7 true).2 = none) := by
  refine ⟨winnerCount_addParticipant, ?_, ?_, by decide, by decide⟩
  · intro db pd raffle hraf hnone hcnt
    exact addParticipant_ceiling db pd none raffle hraf hnone hcnt
  · intro db selId raf r now updateOk hsel he
    simp [drawWinner, hsel, he]

/-- C2 counterexample: the winner count is not bounded by the quantity under
mixed sequences — starting from a quantity-1 raffle with no participants
(which satisfies the bound), two registrations followed by two draws leave
the raffle with two winners. -/
theorem c2_counterexample :
    ¬ (∀ (db : DB) (ops : List Op) (raf : Raffle),
        (∀ raffle ∈ db.raffles, winnerCount db raffle.id ≤ raffle.quantity) →
        raf ∈ (runOps db ops).raffles →
        winnerCount (runOps db ops) raf.id ≤ raf.quantity) := by
  intro hclaim
  have e1 : applyOp dbSeqDemo (Op.add pdSeqA none) =
      ⟨[], [], [⟨1, 1, str "P", 1, str "C"⟩],
       [⟨10, 1, str "a", str "a@x.com", str "1", false, none⟩], [], 11⟩ := by decide
  have e2 : applyOp (⟨[], [], [⟨1, 1, str "P", 1, str "C"⟩],
      [⟨10, 1, str "a", str "a@x.com", str "1", false, none⟩], [], 11⟩ : DB)
      (Op.add pdSeqB none) =
      ⟨[], [], [⟨1, 1, str "P", 1, str "C"⟩],
       [⟨10, 1, str "a", str "a@x.com", str "1", false, none⟩,
        ⟨11, 1, str "b", str "b@x.com", str "1", false, none⟩], [], 12⟩ := by decide
  have e3 : applyOp (⟨[], [], [⟨1, 1, str "P", 1, str "C"⟩],
      [⟨10, 1, str "a", str "a@x.com", str "1", false, none⟩,
       ⟨11, 1, str "b", str "b@x.com", str "1", false, none⟩], [], 12⟩ : DB)
      (Op.draw (some 1) 0 5 true) =
      ⟨[], [], [⟨1, 1, str "P", 1, str "C"⟩],
       [⟨10, 1, str "a", str "a@x.com", str "1", true, some 5⟩,
        ⟨11, 1, str "b", str "b@x.com", str "1", false, none⟩], [], 12⟩ := by
    simp only [applyOp, drawWinner_zero]
    decide
  have e4 : applyOp (⟨[], [], [⟨1, 1, str "P", 1, str "C"⟩],
      [⟨10, 1, str "a", str "a@x.com", str "1", true, some 5⟩,
       ⟨11, 1, str "b", str "b@x.com", str "1", false, none⟩], [], 12⟩ : DB)
      (Op.draw (some 1) 0 6 true) =
      ⟨[], [], [⟨1, 1, str "P", 1, str "C"⟩],
       [⟨10, 1, str "a", str "a@x.com", str "1", true, some 5⟩,
        ⟨11, 1, str "b", str "b@x.com", str "1", true, some 6⟩], [], 12⟩ := by
    simp only [applyOp, drawWinner_zero]
    decide
  have hrun : runOps dbSeqDemo opsSeqDemo =
      ⟨[], [], [⟨1, 1, str "P", 1, str "C"⟩],
       [⟨10, 1, str "a", str "a@x.com", str "1", true, some 5⟩,
        ⟨11, 1, str "b", str "b@x.com", str "1", true, some 6⟩], [], 12⟩ := by
    simp only [opsSeqDemo, runOps, e1, e2, e3, e4]
  have hfin := hclaim dbSeqDemo opsSeqDemo ⟨1, 1, str "P", 1, str "C"⟩
    (by decide) (by rw [hrun]; decide)
  rw [hrun] at hfin
  exact absurd hfin (by decide)

/-- Witness for C2 at the quantity-1 store with one existing winner. -/
theorem c2_winner_ceiling_witness :
    winnerCount (addParticipant dbCeilingDemo pdCeilingDemo none).1 1 =
      winnerCount dbCeilingDemo 1 ∧
    addParticipant dbCeilingDemo pdCeilingDemo none =
      (dbCeilingDemo, ⟨false, msgLimitReached (str "P")⟩) ∧
    (drawWinner dbCeilingDemo (some 1) 0 7 true).2 = none :=
  ⟨c2_winner_ceiling.1 dbCeilingDemo pdCeilingDemo none 1,
   c2_winner_ceiling.2.1 dbCeilingDemo pdCeilingDemo ⟨1, 1, str "P", 1, str "C"⟩
     (by decide) (by decide) (by decide),
   c2_winner_ceiling.2.2.1 dbCeilingDemo (some 1) ⟨1, 1, str "P", 1, str "C"⟩ 0 7 true
     (by decide) (by decide)⟩

-- --------------------------------------------------------------------------
-- C6: raffle-code composition and the duplicate-code rejection.
-- --------------------------------------------------------------------------

/-- C6: the form upper-cases the typed suffix, `createEventWithRaffle`
composes the full code as the organizer's code concatenated with that
suffix (organizer `"ABC"` with input `"promo4k"` gives `"ABCPROMO4K"`), the
inserted raffle row carries the composed code, and an input whose composed
code matches an existing raffle's code (compared exactly as stored) fails
with the duplicate-code message and inserts no raffle. -/
theorem c6_code_composition :
    (str "ABC" ++ raffleCodeInputValue (str "promo4k") = str "ABCPROMO4K") ∧
    (∀ (db : DB) (o : Organizer) (sel : Option Nat) (ev : EventRow)
       (typed eventName raffleName : JStr) (qty now : Nat) (eIns : Option JStr),
      selectedEventOf db sel = some ev →
      (∀ raffle ∈ db.raffles, raffle.code ≠ o.organizerCode ++ jsToUpper typed) →
      createEventWithRaffle db (some o) sel
          ⟨eventName, raffleName, qty, raffleCodeInputValue typed⟩ now eIns none =
        ({ db with
            raffles := db.raffles ++
              [⟨db.nextId, ev.id, raffleName, qty, o.organizerCode ++ jsToUpper typed⟩],
            nextId := db.nextId + 1 },
         ⟨true, msgRaffleAdded raffleName⟩)) ∧
    (∀ (db : DB) (o : Organizer) (sel : Option Nat) (data : EventRaffleInput) (now : Nat),
      (∃ raffle ∈ db.raffles, raffle.code = o.organizerCode ++ data.raffleCode) →
      (createEventWithRaffle db (some o) sel data now none none).2 = ⟨false, msgCodeInUse⟩ ∧
      (createEventWithRaffle db (some o) sel data now none none).1.raffles = db.raffles) := by
  refine ⟨by decide, ?_, ?_⟩
  · intro db o sel ev typed eventName raffleName qty now eIns hsel hnone
    have hfnone : db.raffles.find?
        (fun raffle => raffle.code == o.organizerCode ++ raffleCodeInputValue typed) =
        none := by
      rw [List.find?_eq_none]
      intro x hx hbeq
      exact hnone x hx (by simpa [raffleCodeInputValue] using hbeq)
    simp only [raffleCodeInputValue] at hfnone
    simp [createEventWithRaffle, hsel, insertRafflePart, hfnone, raffleCodeInputValue]
  · intro db o sel data now hex
    have hsome : (db.raffles.find?
        (fun raffle => raffle.code == o.organizerCode ++ data.raffleCode)).isSome := by
      rw [List.find?_isSome]
      obtain ⟨x, hx, he⟩ := hex
      exact ⟨x, hx, by simpa using he⟩
    obtain ⟨q, hq⟩ := Option.isSome_iff_exists.mp hsome
    cases hse : selectedEventOf db sel with
    | some ev =>
      constructor <;> simp [createEventWithRaffle, hse, insertRafflePart, hq]
    | none =>
      constructor <;> simp [createEventWithRaffle, hse, insertRafflePart, hq]

/-- Witness for C6: composition at the concrete organizer code and suffix,
a successful insert carrying the composed code, and a duplicate rejection. -/
theorem c6_code_composition_witness :
    (str "ABC" ++ raffleCodeInputValue (str "promo4k") = str "ABCPROMO4K") ∧
    createEventWithRaffle dbCompanyDemo (some organizerDemo) (some 5)
        ⟨str "Ev", str "R", 1, raffleCodeInputValue (str "promo4k")⟩ 0 none none =
      ({ dbCompanyDemo with
          raffles := dbCompanyDemo.raffles ++
            [⟨dbCompanyDemo.nextId, 5, str "R", 1,
              organizerDemo.organizerCode ++ jsToUpper (str "promo4k")⟩],
          nextId := dbCompanyDemo.nextId + 1 },
       ⟨true, msgRaffleAdded (str "R")⟩) ∧
    (createEventWithRaffle dbRegDemo
        (some ⟨1, str "O", str "R", str "e", str "p", none, str "C", none⟩) none
        ⟨str "E", str "R", 1, str "1"⟩ 0 none none).2 = ⟨false, msgCodeInUse⟩ :=
  ⟨c6_code_composition.1,
   c6_code_composition.2.1 dbCompanyDemo organizerDemo (some 5) ⟨5, str "Ev", 0, 9⟩
     (str "promo4k") (str "Ev") (str "R") 1 0 none (by decide) (by decide),
   (c6_code_composition.2.2 dbRegDemo
     ⟨1, str "O", str "R", str "e", str "p", none, str "C", none⟩ none
     ⟨str "E", str "R", 1, str "1"⟩ 0
     ⟨⟨1, 1, str "Prize", 2, str "C1"⟩, by decide, by decide⟩).1⟩

-- --------------------------------------------------------------------------
-- C7: image-upload failure handling.
-- --------------------------------------------------------------------------

/-- C7 (amended): `saveOrganizer` aborts with the explicit failure result and
performs no row write when the upload of a raw photo file fails, and
substitutes the default image URL only when no image was supplied on
creation; `saveCompany`, by contrast, substitutes the default image URL and
completes the row write when the upload of a raw logo file fails. -/
theorem c7_upload_failure :
    (∀ (db : DB) (form : OrganizerForm) (idOpt : Option Nat) (f : Nat) (wErr : Option JStr),
      form.photoUrl = ImageField.file f →
      saveOrganizer db form idOpt none wErr = (db, ⟨false, msgPhotoUploadFail⟩)) ∧
    (∀ (db : DB) (form : OrganizerForm) (up : Option JStr),
      form.photoUrl = ImageField.absent →
      saveOrganizer db form none up none =
        ({ db with
            organizers := db.organizers ++
              [⟨db.nextId, form.name, form.responsibleName, form.email, form.phone,
                some DEFAULT_IMAGE_URL, form.organizerCode, form.password⟩],
            nextId := db.nextId + 1 },
         ⟨true, msgOrganizerCreated⟩)) ∧
    (∀ (db : DB) (selId : Option Nat) (ev : EventRow) (form : CompanyForm) (f : Nat),
      selectedEventOf db selId = some ev → form.logoUrl = ImageField.file f →
      saveCompany db selId form none none =
        { db with
            companies := db.companies ++ [⟨db.nextId, ev.id, form.name, DEFAULT_IMAGE_URL⟩],
            nextId := db.nextId + 1 }) := by
  refine ⟨?_, ?_, ?_⟩
  · intro db form idOpt f wErr h
    simp [saveOrganizer, h]
  · intro db form up h
    simp [saveOrganizer, h, saveOrganizerWrite]
  · intro db selId ev form f hsel hlogo
    simp [saveCompany, hsel, hlogo]

/-- C7 counterexample: with a raw logo file whose upload fails, `saveCompany`
still completes the row write, substituting the default image URL. -/
theorem c7_counterexample :
    companyFormDemo.logoUrl = ImageField.file 0 ∧
    dbCompanyDemo.companies = [] ∧
    saveCompany dbCompanyDemo (some 5) companyFormDemo none none =
      { dbCompanyDemo with
          companies := [⟨20, 5, str "Booth", DEFAULT_IMAGE_URL⟩], nextId := 21 } :=
  ⟨by decide, by decide, by decide⟩

/-- Witness for C7 at concrete payloads. -/
theorem c7_upload_failure_witness :
    saveOrganizer dbCompanyDemo organizerFormDemo none none none =
      (dbCompanyDemo, ⟨false, msgPhotoUploadFail⟩) ∧
    saveOrganizer dbCompanyDemo organizerFormNoPhoto none none none =
      ({ dbCompanyDemo with
          organizers := dbCompanyDemo.organizers ++
            [⟨dbCompanyDemo.nextId, organizerFormNoPhoto.name,
              organizerFormNoPhoto.responsibleName, organizerFormNoPhoto.email,
              organizerFormNoPhoto.phone, some DEFAULT_IMAGE_URL,
              organizerFormNoPhoto.organizerCode, organizerFormNoPhoto.password⟩],
          nextId := dbCompanyDemo.nextId + 1 },
       ⟨true, msgOrganizerCreated⟩) ∧
    saveCompany dbCompanyDemo (some 5) companyFormDemo none none =
      { dbCompanyDemo with
          companies := dbCompanyDemo.companies ++
            [⟨dbCompanyDemo.nextId, 5, companyFormDemo.name, DEFAULT_IMAGE_URL⟩],
          nextId := dbCompanyDemo.nextId + 1 } :=
  ⟨c7_upload_failure.1 dbCompanyDemo organizerFormDemo none 0 none (by decide),
   c7_upload_failure.2.1 dbCompanyDemo organizerFormNoPhoto none (by decide),
   c7_upload_failure.2.2 dbCompanyDemo (some 5) ⟨5, str "Ev", 0, 9⟩ companyFormDemo 0
     (by decide) (by decide)⟩

-- --------------------------------------------------------------------------
-- C5: the transcoding round trip.
-- --------------------------------------------------------------------------

/-- C5 (amended): transcoding to the other convention and back is the
identity for values whose mapping keys fit the source convention and avoid
the sentinel collisions: in the underscore direction the keys must also not
be `'confirm_password'` (whose camel-cased image is the sentinel
`'confirmPassword'`); in the camel direction excluding the sentinel keys
themselves suffices. -/
theorem c5_transcoding_round_trip :
    (∀ v : JVal, snakeOk v = true → toSnake (toCamel v) = v) ∧
    (∀ v : JVal, camelOk v = true → toCamel (toSnake v) = v) :=
  ⟨toSnake_toCamel, toCamel_toSnake⟩

/-- C5 counterexample: the key `'confirm_password'` is underscore-separated
and is not itself a credential-sentinel key, yet the round trip rewrites it:
`toCamel` maps it to `'confirmPassword'`, which `toSnake` then passes
through as a sentinel, so the original value is not recovered. -/
theorem c5_counterexample :
    snakeKeyOk confirmSnakeKey = true ∧
    isSentinel confirmSnakeKey = false ∧
    toSnake (toCamel vConfirmDemo) ≠ vConfirmDemo :=
  ⟨by decide, by decide,
   fun h => absurd (congrArg keysOf h) (by decide)⟩

/-- Witness for C5 at concrete nested values of both conventions. -/
theorem c5_transcoding_round_trip_witness :
    snakeOk vSnakeDemo = true ∧ toSnake (toCamel vSnakeDemo) = vSnakeDemo ∧
    camelOk vCamelDemo = true ∧ toCamel (toSnake vCamelDemo) = vCamelDemo :=
  ⟨by decide, c5_transcoding_round_trip.1 vSnakeDemo (by decide),
   by decide, c5_transcoding_round_trip.2 vCamelDemo (by decide)⟩

-- --------------------------------------------------------------------------
-- C9: sentinel pass-through at every processed depth of toSnake.
-- --------------------------------------------------------------------------

lemma mem_toSnakeList {u : JVal} : ∀ {vs : List JVal}, u ∈ vs →
    toSnake u ∈ toSnakeList vs := by
  intro vs h
  induction vs with
  | nil => cases h
  | cons v vs ih =>
    rcases List.mem_cons.mp h with h' | h'
    · subst h'
      simp [toSnakeList]
    · simp [toSnakeList]
      exact Or.inr (ih h')

lemma mem_toSnakeObj {k : JStr} {u : JVal} (hs : isSentinel k = false) :
    ∀ {kvs : List (JStr × JVal)}, (k, u) ∈ kvs →
    (camelToSnake k, toSnake u) ∈ toSnakeObj kvs := by
  intro kvs h
  induction kvs with
  | nil => cases h
  | cons kv kvs ih =>
    obtain ⟨k0, v0⟩ := kv
    rcases List.mem_cons.mp h with h' | h'
    · rw [Prod.mk.injEq] at h'
      obtain ⟨hk0, hv0⟩ := h'
      subst hk0
      subst hv0
      simp [toSnakeObj, hs]
    · simp [toSnakeObj]
      exact Or.inr (ih h')

/-- Each entry of `toSnakeObj kvs` relates to the corresponding entry of
`kvs` as the claim describes. -/
lemma forall2_toSnakeObj : ∀ kvs : List (JStr × JVal),
    List.Forall₂ (fun kv kv' : JStr × JVal =>
      (isSentinel kv.1 = true → kv' = kv) ∧
      (isSentinel kv.1 = false → kv' = (camelToSnake kv.1, toSnake kv.2))) kvs
      (toSnakeObj kvs) := by
  intro kvs
  induction kvs with
  | nil => exact List.Forall₂.nil
  | cons kv kvs ih =>
    obtain ⟨k, v⟩ := kv
    by_cases hs : isSentinel k = true
    · have : toSnakeObj ((k, v) :: kvs) = (k, v) :: toSnakeObj kvs := by
        simp [toSnakeObj, hs]
      rw [this]
      exact List.Forall₂.cons ⟨fun _ => rfl, fun hf => absurd hs (by simp [hf])⟩ ih
    · have hs' : isSentinel k = false := by simpa using hs
      have : toSnakeObj ((k, v) :: kvs) = (camelToSnake k, toSnake v) :: toSnakeObj kvs := by
        simp [toSnakeObj, hs']
      rw [this]
      exact List.Forall₂.cons ⟨fun ht => absurd ht (by simp [hs']), fun _ => rfl⟩ ih

/-- C9: at every mapping that `toSnake` processes — at any nesting depth of
the input — an entry whose key is `'password'` or `'confirmPassword'` is
passed through with its key unrewritten and its value untransformed, while
every other entry has its key rewritten by `camelToSnake` to the
underscore-separated form and its value transformed recursively. -/
theorem c9_toSnake_sentinel_passthrough (v : JVal) (kvs : List (JStr × JVal))
    (h : Proc v (JVal.obj kvs)) :
    ∃ kvs', Proc (toSnake v) (JVal.obj kvs') ∧
      List.Forall₂ (fun kv kv' : JStr × JVal =>
        (isSentinel kv.1 = true → kv' = kv) ∧
        (isSentinel kv.1 = false → kv' = (camelToSnake kv.1, toSnake kv.2))) kvs kvs' := by
  have main : ∀ (a b : JVal), Proc a b → ∀ kvs0, b = JVal.obj kvs0 →
      ∃ kvs', Proc (toSnake a) (JVal.obj kvs') ∧
        List.Forall₂ (fun kv kv' : JStr × JVal =>
          (isSentinel kv.1 = true → kv' = kv) ∧
          (isSentinel kv.1 = false → kv' = (camelToSnake kv.1, toSnake kv.2))) kvs0 kvs' := by
    intro a b hp
    induction hp with
    | refl w =>
      intro kvs0 hkv
      subst hkv
      refine ⟨toSnakeObj kvs0, ?_, forall2_toSnakeObj kvs0⟩
      have : toSnake (JVal.obj kvs0) = JVal.obj (toSnakeObj kvs0) := rfl
      rw [this]
      exact Proc.refl _
    | @arr vs u w hmem hproc ih =>
      intro kvs0 hkv
      obtain ⟨kvs', h1, h2⟩ := ih kvs0 hkv
      refine ⟨kvs', ?_, h2⟩
      have harr : toSnake (JVal.arr vs) = JVal.arr (toSnakeList vs) := rfl
      rw [harr]
      exact Proc.arr (mem_toSnakeList hmem) h1
    | @obj kvs1 k u w hmem hsent hproc ih =>
      intro kvs0 hkv
      obtain ⟨kvs', h1, h2⟩ := ih kvs0 hkv
      refine ⟨kvs', ?_, h2⟩
      have hobj : toSnake (JVal.obj kvs1) = JVal.obj (toSnakeObj kvs1) := rfl
      rw [hobj]
      exact Proc.obj (mem_toSnakeObj hsent hmem) (isSentinel_camelToSnake hsent) h1
  exact main v (JVal.obj kvs) h kvs rfl

/-- Witness for C9 one object level down, at a mapping holding a sentinel
entry and a camel-cased entry. -/
theorem c9_toSnake_sentinel_passthrough_witness :
    ∃ kvs', Proc (toSnake procDemoVal) (JVal.obj kvs') ∧
      List.Forall₂ (fun kv kv' : JStr × JVal =>
        (isSentinel kv.1 = true → kv' = kv) ∧
        (isSentinel kv.1 = false → kv' = (camelToSnake kv.1, toSnake kv.2)))
        procDemoInner kvs' :=
  c9_toSnake_sentinel_passthrough procDemoVal procDemoInner
    (@Proc.obj [(str "data", JVal.obj procDemoInner)] (str "data")
      (JVal.obj procDemoInner) (JVal.obj procDemoInner)
      (by simp) (by decide) (Proc.refl _))

end GamerBox
